import Mathlib

/-!
Shallow embedding of the update-fetch / survey-FSM dispatcher of
`packages/backend/fetcher.py` (tables from `packages/backend/db.py`).

The database is modelled as an explicit `Archive` record holding the rows of
the `users`, `messages`, `media`, `user_states` and `last_update` tables plus
the log of replies sent through the bot.  External failures that the Python
code can observe are carried on the input data: each source-side file handle
records whether `bot.get_file` succeeds (`getFileOk`, a failure there raises
and is caught by the per-update try/except of `main`) and whether the S3
`put_object` succeeds (`relayOk`, a failure there is swallowed inside
`upload_telegram_file_to_s3`, which then returns 0).

Python truthiness (`x or y`) on optional strings / ints is modelled by the
explicit helpers `pyOr` / `pyIntOr`.  `timestamp` and `raw_json` columns are
not modelled; no claim concerns them.
-/

namespace FieldAssistant

/-- A Telegram user object as consumed by `upsert_user`. -/
structure TgUser where
  id : Int
  username : Option String
  first_name : Option String
  last_name : Option String
  language_code : Option String
deriving DecidableEq

/-- A source-side file handle together with the outcome of the external calls
made on it: `ext` is the suffix of the Telegram-reported file path (empty when
the path has no suffix), `getFileOk` tells whether `bot.get_file` succeeds,
`relayOk` whether the S3 upload succeeds, `byteLen` the downloaded length. -/
structure FileRef where
  file_id : String
  ext : String
  getFileOk : Bool
  relayOk : Bool
  byteLen : Nat
deriving DecidableEq

/-- One entry of `msg.photo` (a photo-size variant). -/
structure PhotoSize where
  file : FileRef
deriving DecidableEq

/-- An attachment that carries an optional source-provided file name
(Telegram `Audio` and `Document` objects). -/
structure NamedAtt where
  file : FileRef
  file_name : Option String
  mime_type : Option String
deriving DecidableEq

/-- An attachment without a source-provided file name (Telegram `Voice`,
`Video` and `Sticker` objects). -/
structure PlainAtt where
  file : FileRef
  mime_type : Option String
deriving DecidableEq

/-- A location attachment. Coordinates are kept as integers: only their
presence matters to the code and the claims. -/
structure Loc where
  latitude : Int
  longitude : Int
deriving DecidableEq

/-- A Telegram message as consumed by `process_update`. -/
structure Msg where
  message_id : Int
  chat_id : Int
  from_user : Option TgUser
  text : Option String
  caption : Option String
  location : Option Loc
  photo : List PhotoSize
  audio : Option NamedAtt
  voice : Option PlainAtt
  video : Option PlainAtt
  document : Option NamedAtt
  sticker : Option PlainAtt
deriving DecidableEq

/-- One update from `bot.get_updates`. -/
structure Update where
  update_id : Int
  message : Option Msg
  edited_message : Option Msg
deriving DecidableEq

/-- A row of the `users` table (columns used by the dispatcher). -/
structure UserRow where
  id : Nat
  telegram_user_id : Int
  username : Option String
  first_name : Option String
  last_name : Option String
  language_code : Option String
deriving DecidableEq

/-- A row of the `messages` table (`timestamp`/`raw_json` not modelled). -/
structure MessageRow where
  id : Nat
  telegram_message_id : Int
  update_id : Int
  user_id : Nat
  chat_id : Int
  text : Option String
  survey_question : Option String
deriving DecidableEq

/-- A row of the `media` table. -/
structure MediaRow where
  message_id : Nat
  media_type : String
  file_id : Option String
  file_path : Option String
  file_name : Option String
  mime_type : Option String
  file_size : Option Nat
  transcription : String
  description : String
  latitude : Option Int
  longitude : Option Int
deriving DecidableEq

/-- A row of the `user_states` table (keyed by `user_id` outside). -/
structure UserStateRow where
  current_state : Option String
  current_step : Nat
  answers : List String
deriving DecidableEq

/-- The persisted state plus the log of replies sent via the bot. -/
structure Archive where
  users : List UserRow
  nextUserId : Nat
  messages : List MessageRow
  nextMessageId : Nat
  media : List MediaRow
  userStates : List (Nat × UserStateRow)
  lastUpdateId : Option Int
  sent : List (Int × String)
deriving DecidableEq

/-- Python `a or b` on two optional strings: `a` unless it is `None` or
the empty string (falsy), else `b`. -/
def pyOr (a b : Option String) : Option String :=
  match a with
  | some s => if s = "" then b else some s
  | none => b

/-- Python `a or d` on an optional integer: `a` unless `None` or `0`. -/
def pyIntOr (a : Option Int) (d : Int) : Int :=
  match a with
  | some v => if v = 0 then d else v
  | none => d

/-- Python `a or b` on two optional messages (message objects are truthy). -/
def pyMsgOr (a b : Option Msg) : Option Msg :=
  match a with
  | some m => some m
  | none => b

/-- `text = msg.text or msg.caption or ""` in `process_update`. -/
def messageText (m : Msg) : String :=
  (pyOr m.text m.caption).getD ""

/-- Python `str.strip()` with no argument: drop ASCII whitespace from both
ends (the characters relevant to this code base; implemented by structural
recursion so that concrete runs reduce). -/
def isPySpace (c : Char) : Bool :=
  c == ' ' || c == '\t' || c == '\n' || c == '\r' || c == '\x0b' || c == '\x0c'

def pyStrip (s : String) : String :=
  String.mk (((s.data.dropWhile isPySpace).reverse.dropWhile isPySpace).reverse)

/-- The fixed `QUESTION_BANK` of `fetcher.py`. -/
def QUESTION_BANK : List String :=
  ["Where are you going?",
   "Who is the local guide?",
   "What\x27s the target species?"]

/-- `upsert_user`: `INSERT ... ON CONFLICT (telegram_user_id) DO UPDATE`,
returning the row id of the (inserted or updated) row. -/
def upsert_user (st : Archive) (u : TgUser) : Archive × Nat :=
  match st.users.find? (fun r => r.telegram_user_id == u.id) with
  | some r =>
    ({ st with users := st.users.map (fun q =>
        if q.telegram_user_id == u.id then
          { q with username := u.username, first_name := u.first_name,
                   last_name := u.last_name, language_code := u.language_code }
        else q) }, r.id)
  | none =>
    ({ st with
       users := st.users ++ [{ id := st.nextUserId, telegram_user_id := u.id,
                               username := u.username, first_name := u.first_name,
                               last_name := u.last_name, language_code := u.language_code }],
       nextUserId := st.nextUserId + 1 }, st.nextUserId)

/-- `insert_message`: inserts one `messages` row and returns its id.
The `text` column stores `msg.text or msg.caption`. -/
def insert_message (st : Archive) (update_id : Int) (m : Msg) (user_id : Nat)
    (survey_question : Option String) : Archive × Nat :=
  let row : MessageRow :=
    { id := st.nextMessageId, telegram_message_id := m.message_id,
      update_id := update_id, user_id := user_id, chat_id := m.chat_id,
      text := pyOr m.text m.caption, survey_question := survey_question }
  ({ st with messages := st.messages ++ [row],
             nextMessageId := st.nextMessageId + 1 }, st.nextMessageId)

/-- `insert_media`: inserts one `media` row. -/
def insert_media (st : Archive) (r : MediaRow) : Archive :=
  { st with media := st.media ++ [r] }

/-- `bot.send_message(chat_id=..., text=...)`: logged as a sent reply. -/
def send_message (st : Archive) (chat : Int) (t : String) : Archive :=
  { st with sent := st.sent ++ [(chat, t)] }

/-- `SELECT current_state, current_step, answers FROM user_states WHERE
user_id = %s` (`user_id` is the primary key). -/
def lookupState : List (Nat × UserStateRow) → Nat → Option UserStateRow
  | [], _ => none
  | p :: l, uid => if p.1 = uid then some p.2 else lookupState l uid

/-- `UPDATE user_states SET ... WHERE user_id = %s`: applies `g` to every row
whose key matches (the key is a primary key, so at most one row in practice). -/
def mapState : List (Nat × UserStateRow) → Nat → (UserStateRow → UserStateRow) →
    List (Nat × UserStateRow)
  | [], _, _ => []
  | p :: l, uid, g =>
    (if p.1 = uid then (p.1, g p.2) else p) :: mapState l uid g

/-- `INSERT INTO user_states ... ON CONFLICT (user_id) DO UPDATE`: replace the
row if the key exists, else insert it. -/
def putState : List (Nat × UserStateRow) → Nat → UserStateRow →
    List (Nat × UserStateRow)
  | [], uid, row => [(uid, row)]
  | p :: l, uid, row =>
    if p.1 = uid then (p.1, row) :: l else p :: putState l uid row

/-- The `/start_trip` state write: `VALUES (%s, 'survey_active', 0, '[]')`
with full reset on conflict. -/
def startState (st : Archive) (uid : Nat) : Archive :=
  let row : UserStateRow :=
    { current_state := some "survey_active", current_step := 0, answers := [] }
  { st with userStates := putState st.userStates uid row }

/-- `UPDATE user_states SET current_step = %s, answers = %s::jsonb WHERE
user_id = %s` (note: `current_state` is left untouched). -/
def advanceState (st : Archive) (uid : Nat) (next_step : Nat) (answers : List String) :
    Archive :=
  let g : UserStateRow → UserStateRow :=
    fun r => { r with current_step := next_step, answers := answers }
  { st with userStates := mapState st.userStates uid g }

/-- `UPDATE user_states SET current_state = NULL, current_step = 0 WHERE
user_id = %s` (note: the `answers` column is left untouched). -/
def clearState (st : Archive) (uid : Nat) : Archive :=
  let g : UserStateRow → UserStateRow :=
    fun r => { r with current_state := none, current_step := 0 }
  { st with userStates := mapState st.userStates uid g }

/-- `upload_telegram_file_to_s3`: returns the byte length on success and `0`
when the upload raises (the exception is swallowed there). -/
def upload_telegram_file_to_s3 (f : FileRef) : Nat :=
  if f.relayOk then f.byteLen else 0

/-- The S3 key `f"{from_user.id}/{msg.message_id}/{s3_key_name}"`. -/
def s3KeyPath (senderId : Int) (messageId : Int) (name : String) : String :=
  toString senderId ++ "/" ++ toString messageId ++ "/" ++ name

/-- Chain two steps of `process_update` that may raise: a raise in the first
step propagates (the partial state is kept, per-statement commits). -/
def seqB (r : Archive × Bool) (f : Archive → Archive × Bool) : Archive × Bool :=
  if r.2 then r else f r.1

/-- The `if msg.location:` block of `process_update`. -/
def locationPart (st : Archive) (mid : Nat) (m : Msg) : Archive :=
  match m.location with
  | none => st
  | some loc =>
    insert_media st
      { message_id := mid, media_type := "location", file_id := none,
        file_path := none, file_name := none, mime_type := none,
        file_size := none, transcription := "", description := "",
        latitude := some loc.latitude, longitude := some loc.longitude }

/-- The `if msg.photo:` block: pick the last (highest-resolution) variant,
`bot.get_file` (raising on failure), relay, insert the row. -/
def photoPart (st : Archive) (mid : Nat) (senderId : Int) (m : Msg) : Archive × Bool :=
  match m.photo.getLast? with
  | none => (st, false)
  | some best =>
    if best.file.getFileOk then
      let ext := if best.file.ext = "" then ".jpg" else best.file.ext
      let name := "photo_" ++ best.file.file_id ++ ext
      let path := s3KeyPath senderId m.message_id name
      let size := upload_telegram_file_to_s3 best.file
      (insert_media st
        { message_id := mid, media_type := "photo", file_id := some best.file.file_id,
          file_path := some path, file_name := some name,
          mime_type := some "image/jpeg", file_size := some size,
          transcription := "", description := "", latitude := none, longitude := none },
       false)
    else (st, true)

/-- The `if msg.audio:` block (`s3_key_name = audio.file_name or
f'audio_{id}{ext}'`). -/
def audioPart (st : Archive) (mid : Nat) (senderId : Int) (m : Msg) : Archive × Bool :=
  match m.audio with
  | none => (st, false)
  | some audio =>
    if audio.file.getFileOk then
      let ext := if audio.file.ext = "" then ".mp3" else audio.file.ext
      let name := (pyOr audio.file_name (some ("audio_" ++ audio.file.file_id ++ ext))).getD ""
      let path := s3KeyPath senderId m.message_id name
      let size := upload_telegram_file_to_s3 audio.file
      (insert_media st
        { message_id := mid, media_type := "audio", file_id := some audio.file.file_id,
          file_path := some path, file_name := some name,
          mime_type := audio.mime_type, file_size := some size,
          transcription := "", description := "", latitude := none, longitude := none },
       false)
    else (st, true)

/-- The `if msg.voice:` block. -/
def voicePart (st : Archive) (mid : Nat) (senderId : Int) (m : Msg) : Archive × Bool :=
  match m.voice with
  | none => (st, false)
  | some voice =>
    if voice.file.getFileOk then
      let ext := if voice.file.ext = "" then ".ogg" else voice.file.ext
      let name := "voice_" ++ voice.file.file_id ++ ext
      let path := s3KeyPath senderId m.message_id name
      let size := upload_telegram_file_to_s3 voice.file
      (insert_media st
        { message_id := mid, media_type := "voice", file_id := some voice.file.file_id,
          file_path := some path, file_name := some name,
          mime_type := voice.mime_type, file_size := some size,
          transcription := "", description := "", latitude := none, longitude := none },
       false)
    else (st, true)

/-- The `if msg.video:` block. -/
def videoPart (st : Archive) (mid : Nat) (senderId : Int) (m : Msg) : Archive × Bool :=
  match m.video with
  | none => (st, false)
  | some video =>
    if video.file.getFileOk then
      let ext := if video.file.ext = "" then ".mp4" else video.file.ext
      let name := "video_" ++ video.file.file_id ++ ext
      let path := s3KeyPath senderId m.message_id name
      let size := upload_telegram_file_to_s3 video.file
      (insert_media st
        { message_id := mid, media_type := "video", file_id := some video.file.file_id,
          file_path := some path, file_name := some name,
          mime_type := video.mime_type, file_size := some size,
          transcription := "", description := "", latitude := none, longitude := none },
       false)
    else (st, true)

/-- The `if msg.document:` block (`s3_key_name = doc.file_name or
f'doc_{id}{ext}'`). -/
def documentPart (st : Archive) (mid : Nat) (senderId : Int) (m : Msg) : Archive × Bool :=
  match m.document with
  | none => (st, false)
  | some doc =>
    if doc.file.getFileOk then
      let ext := if doc.file.ext = "" then ".bin" else doc.file.ext
      let name := (pyOr doc.file_name (some ("doc_" ++ doc.file.file_id ++ ext))).getD ""
      let path := s3KeyPath senderId m.message_id name
      let size := upload_telegram_file_to_s3 doc.file
      (insert_media st
        { message_id := mid, media_type := "document", file_id := some doc.file.file_id,
          file_path := some path, file_name := some name,
          mime_type := doc.mime_type, file_size := some size,
          transcription := "", description := "", latitude := none, longitude := none },
       false)
    else (st, true)

/-- The `if msg.sticker:` block (`mime_type = st.mime_type or 'image/webp'`). -/
def stickerPart (st : Archive) (mid : Nat) (senderId : Int) (m : Msg) : Archive × Bool :=
  match m.sticker with
  | none => (st, false)
  | some stk =>
    if stk.file.getFileOk then
      let ext := if stk.file.ext = "" then ".webp" else stk.file.ext
      let name := "sticker_" ++ stk.file.file_id ++ ext
      let path := s3KeyPath senderId m.message_id name
      let size := upload_telegram_file_to_s3 stk.file
      (insert_media st
        { message_id := mid, media_type := "sticker", file_id := some stk.file.file_id,
          file_path := some path, file_name := some name,
          mime_type := pyOr stk.mime_type (some "image/webp"), file_size := some size,
          transcription := "", description := "", latitude := none, longitude := none },
       false)
    else (st, true)

/-- The per-kind media fan-out of `process_update`, in source order, a raise
in one block skipping the following blocks. -/
def mediaFanout (st : Archive) (mid : Nat) (senderId : Int) (m : Msg) : Archive × Bool :=
  let st1 := locationPart st mid m
  seqB (photoPart st1 mid senderId m) (fun s =>
  seqB (audioPart s mid senderId m) (fun s =>
  seqB (voicePart s mid senderId m) (fun s =>
  seqB (videoPart s mid senderId m) (fun s =>
  seqB (documentPart s mid senderId m) (fun s =>
  stickerPart s mid senderId m)))))

/-- Step 4 of `process_update`: persist the message with the computed
survey-question context, then run the media fan-out. -/
def archiveWithContext (st : Archive) (update_id : Int) (m : Msg) (senderId : Int)
    (user_id : Nat) (ctx : Option String) : Archive × Bool :=
  let r := insert_message st update_id m user_id ctx
  mediaFanout r.1 r.2 senderId m

/-- `process_update`: the per-update dispatcher.  Returns the archive after
the update together with `true` when processing raised an exception (caught
by the caller's try/except); all writes made before the raise are kept, since
every statement commits independently. -/
def process_update (st : Archive) (upd : Update) : Archive × Bool :=
  match pyMsgOr upd.message upd.edited_message with
  | none => (st, false)
  | some msg =>
    match msg.from_user with
    | none => (st, false)
    | some from_user =>
      let r0 := upsert_user st from_user
      let st1 := r0.1
      let user_id_db := r0.2
      let state_row := lookupState st1.userStates user_id_db
      let text := messageText msg
      if pyStrip text = "/start_trip" then
        let st2 := startState st1 user_id_db
        let st3 := send_message st2 msg.chat_id ("Question 1: " ++ QUESTION_BANK.getD 0 "")
        ((insert_message st3 upd.update_id msg user_id_db none).1, false)
      else
        match state_row with
        | some row =>
          if row.current_state = some "survey_active" then
            let current_step := row.current_step
            if current_step < QUESTION_BANK.length then
              let ctx := some (QUESTION_BANK.getD current_step "")
              let answers := row.answers ++ [text]
              let next_step := current_step + 1
              if next_step < QUESTION_BANK.length then
                let st2 := advanceState st1 user_id_db next_step answers
                let st3 := send_message st2 msg.chat_id
                  ("Question " ++ toString (next_step + 1) ++ ": " ++
                    QUESTION_BANK.getD next_step "")
                archiveWithContext st3 upd.update_id msg from_user.id user_id_db ctx
              else
                let st2 := clearState st1 user_id_db
                let summary := String.intercalate "\n"
                  ((QUESTION_BANK.zip answers).map
                    (fun p => "Q: " ++ p.1 ++ "\nA: " ++ p.2))
                let st3 := send_message st2 msg.chat_id
                  ("Survey Complete! Here is your summary:\n\n" ++ summary)
                archiveWithContext st3 upd.update_id msg from_user.id user_id_db ctx
            else (st1, true)
          else archiveWithContext st1 upd.update_id msg from_user.id user_id_db none
        | none => archiveWithContext st1 upd.update_id msg from_user.id user_id_db none

/-- One iteration of the batch loop of `main`: run `process_update` under the
try/except; when it did not raise, track
`if getattr(upd, 'update_id', None) and upd.update_id > max_update`
(note: an id of `0` is falsy and is never tracked, and a raising update skips
the tracking line entirely). -/
def runStep (acc : Archive × Int) (upd : Update) : Archive × Int :=
  let r := process_update acc.1 upd
  if r.2 then (r.1, acc.2)
  else if upd.update_id ≠ 0 ∧ acc.2 < upd.update_id then (r.1, upd.update_id)
  else (r.1, acc.2)

/-- The batch-processing part of `main`, given the already-fetched batch:
empty batches return early; otherwise `max_update = last or -1` is folded
through `runStep` and the cursor is written back when `max_update >= 0`. -/
def run_batch (st : Archive) (updates : List Update) : Archive :=
  if updates = [] then st
  else
    let acc := updates.foldl runStep (st, pyIntOr st.lastUpdateId (-1))
    if 0 ≤ acc.2 then { acc.1 with lastUpdateId := some acc.2 } else acc.1

/-! ### Invariants -/

/-- The type-keyed exclusivity shape of a `media` row: a `location` row has
both coordinates and no storage key; a row of any file-bearing type has a
storage key and no coordinates. -/
def mediaRowOk (r : MediaRow) : Prop :=
  (r.media_type = "location" ∧ r.latitude.isSome ∧ r.longitude.isSome ∧
    r.file_path = none) ∨
  (r.media_type ∈ (["photo", "audio", "voice", "video", "document", "sticker"] :
      List String) ∧
    r.file_path.isSome ∧ r.latitude = none ∧ r.longitude = none)

/-- Every `media` row of the archive satisfies `mediaRowOk`. -/
def mediaInvL (l : List MediaRow) : Prop := ∀ r ∈ l, mediaRowOk r

def mediaInv (st : Archive) : Prop := mediaInvL st.media

/-- The survey-FSM consistency of the `user_states` table: an active row has
as many collected answers as its step and a step inside the question list. -/
def stateInvL (l : List (Nat × UserStateRow)) : Prop :=
  ∀ p ∈ l, p.2.current_state = some "survey_active" →
    p.2.answers.length = p.2.current_step ∧
    p.2.current_step < QUESTION_BANK.length

def stateInv (st : Archive) : Prop := stateInvL st.userStates

/-! ### Concrete fixtures for the closed instances -/

/-- The archive right after `init_db` on a fresh database: empty tables and a
`last_update` row holding NULL. -/
def emptyArchive : Archive :=
  { users := [], nextUserId := 1, messages := [], nextMessageId := 1,
    media := [], userStates := [], lastUpdateId := none, sent := [] }

/-- A message carrying nothing but its ids and a sender. -/
def bareMsg (mid chat : Int) (u : Option TgUser) : Msg :=
  { message_id := mid, chat_id := chat, from_user := u, text := none,
    caption := none, location := none, photo := [], audio := none,
    voice := none, video := none, document := none, sticker := none }

def tgAlice : TgUser :=
  { id := 100, username := none, first_name := none, last_name := none,
    language_code := none }

/-- One user row as `upsert_user` first creates it for `tgAlice` on an empty
archive. -/
def aliceRow : UserRow :=
  { id := 1, telegram_user_id := 100, username := none, first_name := none,
    last_name := none, language_code := none }

def mkUpdate (i : Int) (m : Msg) : Update :=
  { update_id := i, message := some m, edited_message := none }

/-- The file-bearing media kinds of the fan-out. -/
inductive FileKind
  | photo
  | audio
  | voice
  | video
  | document
  | sticker
deriving DecidableEq

def kindName : FileKind → String
  | .photo => "photo"
  | .audio => "audio"
  | .voice => "voice"
  | .video => "video"
  | .document => "document"
  | .sticker => "sticker"

/-- Attach a single file of the given kind to a message. -/
def msgWithAttachment (k : FileKind) (f : FileRef) (m : Msg) : Msg :=
  match k with
  | .photo => { m with photo := [{ file := f }] }
  | .audio => { m with audio := some { file := f, file_name := none, mime_type := none } }
  | .voice => { m with voice := some { file := f, mime_type := none } }
  | .video => { m with video := some { file := f, mime_type := none } }
  | .document => { m with document := some { file := f, file_name := none, mime_type := none } }
  | .sticker => { m with sticker := some { file := f, mime_type := none } }

/-- A file handle whose `bot.get_file` call raises. -/
def failingGetFile : FileRef :=
  { file_id := "F", ext := "", getFileOk := false, relayOk := true, byteLen := 3 }

/-- A file handle whose S3 relay fails (the swallowed-error path). -/
def failingRelay : FileRef :=
  { file_id := "F", ext := ".png", getFileOk := true, relayOk := false, byteLen := 9 }

/-- Batch for the cursor claim: ids 5 and 6 process fine, id 7 raises inside
`bot.get_file` while handling its photo. -/
def c1u5 : Update := mkUpdate 5 { bareMsg 11 7 (some tgAlice) with text := some "hello" }

def c1u6 : Update := mkUpdate 6 { bareMsg 12 7 (some tgAlice) with text := some "hi" }

def c1u7 : Update :=
  mkUpdate 7 (msgWithAttachment .photo failingGetFile (bareMsg 13 7 (some tgAlice)))

/-- An archive in which Alice exists and her survey is active at the given
step with the given collected answers. -/
def archiveActive (i : Nat) (ans : List String) : Archive :=
  { emptyArchive with
    users := [aliceRow], nextUserId := 2,
    userStates := [(1, { current_state := some "survey_active",
                         current_step := i, answers := ans })] }

def locBerlin : Loc := { latitude := 52, longitude := 13 }

/-- Update with no resolvable sender. -/
def c6Upd : Update := mkUpdate 9 (bareMsg 1 7 none)

/-- Alice answering the first question. -/
def w2St : Archive := archiveActive 0 []

def w2Upd : Update := mkUpdate 10 { bareMsg 11 7 (some tgAlice) with text := some "Goa" }

/-- Alice answering the last question. -/
def w3St : Archive := archiveActive 2 ["a", "b"]

def w3Upd : Update := mkUpdate 12 { bareMsg 13 7 (some tgAlice) with text := some "Tiger" }

/-- Fixtures for the answer-persistence claim. -/
def c5St : Archive := archiveActive 2 ["a", "b"]

def c5Upd : Update := mkUpdate 14 { bareMsg 15 7 (some tgAlice) with text := some "c" }

def c5WSt : Archive := archiveActive 0 []

def c5WUpd : Update := mkUpdate 16 { bareMsg 17 7 (some tgAlice) with text := some "x" }

/-- A message whose body is the start command padded with a leading space,
carrying a location attachment. -/
def c4Msg : Msg :=
  { bareMsg 20 7 (some tgAlice) with
    text := some " /start_trip"
    location := some locBerlin }

def c4Upd : Update := mkUpdate 21 c4Msg

/-- A bare location message (no text, no caption) for the implicit-answer
claim. -/
def c10Upd : Update :=
  mkUpdate 60 { bareMsg 61 7 (some tgAlice) with location := some locBerlin }

/-- The `messages` row appended by step 4 of `process_update`. -/
def archivedRow (st : Archive) (update_id : Int) (m : Msg) (user_id : Nat)
    (ctx : Option String) : MessageRow :=
  { id := st.nextMessageId, telegram_message_id := m.message_id,
    update_id := update_id, user_id := user_id, chat_id := m.chat_id,
    text := pyOr m.text m.caption, survey_question := ctx }

/-- The `media` row inserted for a location attachment. -/
def locationRow (mid : Nat) (loc : Loc) : MediaRow :=
  { message_id := mid, media_type := "location", file_id := none,
    file_path := none, file_name := none, mime_type := none,
    file_size := none, transcription := "", description := "",
    latitude := some loc.latitude, longitude := some loc.longitude }

/-- The `media` row the fan-out inserts for a message whose only attachment
is one file of kind `k` built by `msgWithAttachment` (so with no
source-provided file name and no source mime type). -/
def fileMediaRow (k : FileKind) (f : FileRef) (mid : Nat) (sid : Int) (msgId : Int) :
    MediaRow :=
  match k with
  | .photo =>
    { message_id := mid, media_type := "photo", file_id := some f.file_id,
      file_path := some (s3KeyPath sid msgId
        ("photo_" ++ f.file_id ++ (if f.ext = "" then ".jpg" else f.ext))),
      file_name := some ("photo_" ++ f.file_id ++ (if f.ext = "" then ".jpg" else f.ext)),
      mime_type := some "image/jpeg",
      file_size := some (upload_telegram_file_to_s3 f),
      transcription := "", description := "", latitude := none, longitude := none }
  | .audio =>
    { message_id := mid, media_type := "audio", file_id := some f.file_id,
      file_path := some (s3KeyPath sid msgId
        ("audio_" ++ f.file_id ++ (if f.ext = "" then ".mp3" else f.ext))),
      file_name := some ("audio_" ++ f.file_id ++ (if f.ext = "" then ".mp3" else f.ext)),
      mime_type := none,
      file_size := some (upload_telegram_file_to_s3 f),
      transcription := "", description := "", latitude := none, longitude := none }
  | .voice =>
    { message_id := mid, media_type := "voice", file_id := some f.file_id,
      file_path := some (s3KeyPath sid msgId
        ("voice_" ++ f.file_id ++ (if f.ext = "" then ".ogg" else f.ext))),
      file_name := some ("voice_" ++ f.file_id ++ (if f.ext = "" then ".ogg" else f.ext)),
      mime_type := none,
      file_size := some (upload_telegram_file_to_s3 f),
      transcription := "", description := "", latitude := none, longitude := none }
  | .video =>
    { message_id := mid, media_type := "video", file_id := some f.file_id,
      file_path := some (s3KeyPath sid msgId
        ("video_" ++ f.file_id ++ (if f.ext = "" then ".mp4" else f.ext))),
      file_name := some ("video_" ++ f.file_id ++ (if f.ext = "" then ".mp4" else f.ext)),
      mime_type := none,
      file_size := some (upload_telegram_file_to_s3 f),
      transcription := "", description := "", latitude := none, longitude := none }
  | .document =>
    { message_id := mid, media_type := "document", file_id := some f.file_id,
      file_path := some (s3KeyPath sid msgId
        ("doc_" ++ f.file_id ++ (if f.ext = "" then ".bin" else f.ext))),
      file_name := some ("doc_" ++ f.file_id ++ (if f.ext = "" then ".bin" else f.ext)),
      mime_type := none,
      file_size := some (upload_telegram_file_to_s3 f),
      transcription := "", description := "", latitude := none, longitude := none }
  | .sticker =>
    { message_id := mid, media_type := "sticker", file_id := some f.file_id,
      file_path := some (s3KeyPath sid msgId
        ("sticker_" ++ f.file_id ++ (if f.ext = "" then ".webp" else f.ext))),
      file_name := some ("sticker_" ++ f.file_id ++ (if f.ext = "" then ".webp" else f.ext)),
      mime_type := some "image/webp",
      file_size := some (upload_telegram_file_to_s3 f),
      transcription := "", description := "", latitude := none, longitude := none }

theorem upsert_user_fst_messages (st : Archive) (u : TgUser) :
    (upsert_user st u).1.messages = st.messages := by
  unfold upsert_user
  cases st.users.find? (fun r => r.telegram_user_id == u.id) <;> rfl

theorem upsert_user_fst_media (st : Archive) (u : TgUser) :
    (upsert_user st u).1.media = st.media := by
  unfold upsert_user
  cases st.users.find? (fun r => r.telegram_user_id == u.id) <;> rfl

theorem upsert_user_fst_userStates (st : Archive) (u : TgUser) :
    (upsert_user st u).1.userStates = st.userStates := by
  unfold upsert_user
  cases st.users.find? (fun r => r.telegram_user_id == u.id) <;> rfl

theorem upsert_user_fst_sent (st : Archive) (u : TgUser) :
    (upsert_user st u).1.sent = st.sent := by
  unfold upsert_user
  cases st.users.find? (fun r => r.telegram_user_id == u.id) <;> rfl

theorem upsert_user_fst_nextMessageId (st : Archive) (u : TgUser) :
    (upsert_user st u).1.nextMessageId = st.nextMessageId := by
  unfold upsert_user
  cases st.users.find? (fun r => r.telegram_user_id == u.id) <;> rfl

/-- A field that `insert_media` leaves unchanged is preserved by each media
block and by their `seqB` chaining. -/
theorem seqB_preserves (P : Archive → Prop) (r : Archive × Bool) (f : Archive → Archive × Bool)
    (h1 : P r.1) (h2 : ∀ s, P s → P (f s).1) : P (seqB r f).1 := by
  unfold seqB
  split
  · exact h1
  · exact h2 r.1 h1

theorem locationPart_preserves (P : Archive → Prop)
    (hins : ∀ s r, P s → P (insert_media s r))
    (st : Archive) (mid : Nat) (m : Msg) (h : P st) : P (locationPart st mid m) := by
  unfold locationPart
  cases m.location
  · exact h
  · exact hins _ _ h

theorem photoPart_preserves (P : Archive → Prop)
    (hins : ∀ s r, P s → P (insert_media s r))
    (st : Archive) (mid : Nat) (sid : Int) (m : Msg) (h : P st) :
    P (photoPart st mid sid m).1 := by
  unfold photoPart
  cases m.photo.getLast?
  · exact h
  · dsimp only
    split
    · exact hins _ _ h
    · exact h

theorem audioPart_preserves (P : Archive → Prop)
    (hins : ∀ s r, P s → P (insert_media s r))
    (st : Archive) (mid : Nat) (sid : Int) (m : Msg) (h : P st) :
    P (audioPart st mid sid m).1 := by
  unfold audioPart
  cases m.audio
  · exact h
  · dsimp only
    split
    · exact hins _ _ h
    · exact h

theorem voicePart_preserves (P : Archive → Prop)
    (hins : ∀ s r, P s → P (insert_media s r))
    (st : Archive) (mid : Nat) (sid : Int) (m : Msg) (h : P st) :
    P (voicePart st mid sid m).1 := by
  unfold voicePart
  cases m.voice
  · exact h
  · dsimp only
    split
    · exact hins _ _ h
    · exact h

theorem videoPart_preserves (P : Archive → Prop)
    (hins : ∀ s r, P s → P (insert_media s r))
    (st : Archive) (mid : Nat) (sid : Int) (m : Msg) (h : P st) :
    P (videoPart st mid sid m).1 := by
  unfold videoPart
  cases m.video
  · exact h
  · dsimp only
    split
    · exact hins _ _ h
    · exact h

theorem documentPart_preserves (P : Archive → Prop)
    (hins : ∀ s r, P s → P (insert_media s r))
    (st : Archive) (mid : Nat) (sid : Int) (m : Msg) (h : P st) :
    P (documentPart st mid sid m).1 := by
  unfold documentPart
  cases m.document
  · exact h
  · dsimp only
    split
    · exact hins _ _ h
    · exact h

theorem stickerPart_preserves (P : Archive → Prop)
    (hins : ∀ s r, P s → P (insert_media s r))
    (st : Archive) (mid : Nat) (sid : Int) (m : Msg) (h : P st) :
    P (stickerPart st mid sid m).1 := by
  unfold stickerPart
  cases m.sticker
  · exact h
  · dsimp only
    split
    · exact hins _ _ h
    · exact h

theorem mediaFanout_preserves (P : Archive → Prop)
    (hins : ∀ s r, P s → P (insert_media s r))
    (st : Archive) (mid : Nat) (sid : Int) (m : Msg) (h : P st) :
    P (mediaFanout st mid sid m).1 := by
  unfold mediaFanout
  refine seqB_preserves P _ _ (photoPart_preserves P hins _ _ _ _
    (locationPart_preserves P hins _ _ _ h)) (fun s hs => ?_)
  refine seqB_preserves P _ _ (audioPart_preserves P hins _ _ _ _ hs) (fun s hs => ?_)
  refine seqB_preserves P _ _ (voicePart_preserves P hins _ _ _ _ hs) (fun s hs => ?_)
  refine seqB_preserves P _ _ (videoPart_preserves P hins _ _ _ _ hs) (fun s hs => ?_)
  refine seqB_preserves P _ _ (documentPart_preserves P hins _ _ _ _ hs) (fun s hs => ?_)
  exact stickerPart_preserves P hins _ _ _ _ hs

theorem mediaFanout_fst_messages (st : Archive) (mid : Nat) (sid : Int) (m : Msg) :
    (mediaFanout st mid sid m).1.messages = st.messages :=
  mediaFanout_preserves (fun s => s.messages = st.messages)
    (fun _ _ h => h) st mid sid m rfl

theorem mediaFanout_fst_userStates (st : Archive) (mid : Nat) (sid : Int) (m : Msg) :
    (mediaFanout st mid sid m).1.userStates = st.userStates :=
  mediaFanout_preserves (fun s => s.userStates = st.userStates)
    (fun _ _ h => h) st mid sid m rfl

theorem mediaFanout_fst_sent (st : Archive) (mid : Nat) (sid : Int) (m : Msg) :
    (mediaFanout st mid sid m).1.sent = st.sent :=
  mediaFanout_preserves (fun s => s.sent = st.sent)
    (fun _ _ h => h) st mid sid m rfl

theorem mediaFanout_noAttachments (st : Archive) (mid : Nat) (sid : Int) (m : Msg)
    (hl : m.location = none) (hp : m.photo = []) (ha : m.audio = none)
    (hv : m.voice = none) (hvi : m.video = none) (hd : m.document = none)
    (hs : m.sticker = none) :
    mediaFanout st mid sid m = (st, false) := by
  unfold mediaFanout seqB locationPart photoPart audioPart voicePart videoPart
    documentPart stickerPart
  rw [hl, hp, ha, hv, hvi, hd, hs]
  rfl

/-! ### Lookup lemmas for the `user_states` table -/

theorem lookupState_mapState_self (l : List (Nat × UserStateRow)) (uid : Nat)
    (g : UserStateRow → UserStateRow) :
    lookupState (mapState l uid g) uid = (lookupState l uid).map g := by
  induction l with
  | nil => rfl
  | cons p l ih =>
    by_cases h : p.1 = uid
    · rw [mapState, lookupState, if_pos h, lookupState, if_pos h, if_pos h]
      rfl
    · rw [mapState, lookupState, if_neg h, lookupState, if_neg h, if_neg h]
      exact ih

theorem lookupState_mapState_other (l : List (Nat × UserStateRow)) (uid uid' : Nat)
    (g : UserStateRow → UserStateRow) (hne : uid' ≠ uid) :
    lookupState (mapState l uid g) uid' = lookupState l uid' := by
  induction l with
  | nil => rfl
  | cons p l ih =>
    by_cases h : p.1 = uid
    · rw [mapState, lookupState, if_pos h, lookupState,
        if_neg (show ¬ p.1 = uid' from fun hh => hne (hh ▸ h)),
        if_neg (show ¬ (p.1, g p.2).1 = uid' from fun hh => hne ((hh : p.1 = uid') ▸ h))]
      exact ih
    · rw [mapState, lookupState, if_neg h, lookupState]
      by_cases h' : p.1 = uid'
      · rw [if_pos h', if_pos h']
      · rw [if_neg h', if_neg h']
        exact ih

theorem lookupState_putState_self (l : List (Nat × UserStateRow)) (uid : Nat)
    (row : UserStateRow) :
    lookupState (putState l uid row) uid = some row := by
  induction l with
  | nil => rw [putState, lookupState, if_pos rfl]
  | cons p l ih =>
    by_cases h : p.1 = uid
    · rw [putState, if_pos h, lookupState, if_pos h]
    · rw [putState, if_neg h, lookupState, if_neg h]
      exact ih

/-! ### Branch characterizations of `process_update` -/

theorem messageText_of_text (m : Msg) (t : String) (ht : m.text = some t) (ht0 : t ≠ "") :
    messageText m = t := by
  unfold messageText pyOr
  rw [ht]
  dsimp only
  rw [if_neg ht0]
  rfl

theorem process_update_no_message (st : Archive) (upd : Update)
    (hm : pyMsgOr upd.message upd.edited_message = none) :
    process_update st upd = (st, false) := by
  unfold process_update
  rw [hm]

theorem process_update_no_sender (st : Archive) (upd : Update) (msg : Msg)
    (hm : pyMsgOr upd.message upd.edited_message = some msg)
    (hu : msg.from_user = none) :
    process_update st upd = (st, false) := by
  unfold process_update
  rw [hm]
  dsimp only
  rw [hu]

theorem process_update_command (st : Archive) (upd : Update) (msg : Msg) (u : TgUser)
    (hm : pyMsgOr upd.message upd.edited_message = some msg)
    (hu : msg.from_user = some u)
    (hcmd : pyStrip (messageText msg) = "/start_trip") :
    process_update st upd =
      ((insert_message
          (send_message (startState (upsert_user st u).1 (upsert_user st u).2)
            msg.chat_id ("Question 1: " ++ QUESTION_BANK.getD 0 ""))
          upd.update_id msg (upsert_user st u).2 none).1, false) := by
  unfold process_update
  rw [hm]
  dsimp only
  simp only [hu, hcmd, ite_true, if_pos rfl]

theorem process_update_advance (st : Archive) (upd : Update) (msg : Msg) (u : TgUser)
    (row : UserStateRow)
    (hm : pyMsgOr upd.message upd.edited_message = some msg)
    (hu : msg.from_user = some u)
    (hcmd : ¬ pyStrip (messageText msg) = "/start_trip")
    (hrow : lookupState st.userStates (upsert_user st u).2 = some row)
    (hactive : row.current_state = some "survey_active")
    (hstep : row.current_step + 1 < QUESTION_BANK.length) :
    process_update st upd =
      archiveWithContext
        (send_message
          (advanceState (upsert_user st u).1 (upsert_user st u).2 (row.current_step + 1)
            (row.answers ++ [messageText msg]))
          msg.chat_id
          ("Question " ++ toString (row.current_step + 1 + 1) ++ ": " ++
            QUESTION_BANK.getD (row.current_step + 1) ""))
        upd.update_id msg u.id (upsert_user st u).2
        (some (QUESTION_BANK.getD row.current_step "")) := by
  have hstep0 : row.current_step < QUESTION_BANK.length := Nat.lt_of_succ_lt hstep
  unfold process_update
  rw [hm]
  dsimp only
  simp only [hu, if_neg hcmd, upsert_user_fst_userStates, hrow, hactive,
    ite_true, if_pos rfl, if_pos hstep0, if_pos hstep]

theorem process_update_final (st : Archive) (upd : Update) (msg : Msg) (u : TgUser)
    (row : UserStateRow)
    (hm : pyMsgOr upd.message upd.edited_message = some msg)
    (hu : msg.from_user = some u)
    (hcmd : ¬ pyStrip (messageText msg) = "/start_trip")
    (hrow : lookupState st.userStates (upsert_user st u).2 = some row)
    (hactive : row.current_state = some "survey_active")
    (hstep0 : row.current_step < QUESTION_BANK.length)
    (hstep : ¬ row.current_step + 1 < QUESTION_BANK.length) :
    process_update st upd =
      archiveWithContext
        (send_message
          (clearState (upsert_user st u).1 (upsert_user st u).2)
          msg.chat_id
          ("Survey Complete! Here is your summary:\n\n" ++
            String.intercalate "\n"
              ((QUESTION_BANK.zip (row.answers ++ [messageText msg])).map
                (fun p => "Q: " ++ p.1 ++ "\nA: " ++ p.2))))
        upd.update_id msg u.id (upsert_user st u).2
        (some (QUESTION_BANK.getD row.current_step "")) := by
  unfold process_update
  rw [hm]
  dsimp only
  simp only [hu, if_neg hcmd, upsert_user_fst_userStates, hrow, hactive,
    ite_true, if_pos rfl, if_pos hstep0, if_neg hstep]

theorem process_update_index_error (st : Archive) (upd : Update) (msg : Msg) (u : TgUser)
    (row : UserStateRow)
    (hm : pyMsgOr upd.message upd.edited_message = some msg)
    (hu : msg.from_user = some u)
    (hcmd : ¬ pyStrip (messageText msg) = "/start_trip")
    (hrow : lookupState st.userStates (upsert_user st u).2 = some row)
    (hactive : row.current_state = some "survey_active")
    (hstep0 : ¬ row.current_step < QUESTION_BANK.length) :
    process_update st upd = ((upsert_user st u).1, true) := by
  unfold process_update
  rw [hm]
  dsimp only
  simp only [hu, if_neg hcmd, upsert_user_fst_userStates, hrow, hactive,
    ite_true, if_pos rfl, if_neg hstep0]

theorem process_update_no_state (st : Archive) (upd : Update) (msg : Msg) (u : TgUser)
    (hm : pyMsgOr upd.message upd.edited_message = some msg)
    (hu : msg.from_user = some u)
    (hcmd : ¬ pyStrip (messageText msg) = "/start_trip")
    (hrow : lookupState st.userStates (upsert_user st u).2 = none) :
    process_update st upd =
      archiveWithContext (upsert_user st u).1 upd.update_id msg u.id
        (upsert_user st u).2 none := by
  unfold process_update
  rw [hm]
  dsimp only
  simp only [hu, if_neg hcmd, upsert_user_fst_userStates, hrow]

theorem process_update_inactive (st : Archive) (upd : Update) (msg : Msg) (u : TgUser)
    (row : UserStateRow)
    (hm : pyMsgOr upd.message upd.edited_message = some msg)
    (hu : msg.from_user = some u)
    (hcmd : ¬ pyStrip (messageText msg) = "/start_trip")
    (hrow : lookupState st.userStates (upsert_user st u).2 = some row)
    (hactive : ¬ row.current_state = some "survey_active") :
    process_update st upd =
      archiveWithContext (upsert_user st u).1 upd.update_id msg u.id
        (upsert_user st u).2 none := by
  unfold process_update
  rw [hm]
  dsimp only
  simp only [hu, if_neg hcmd, upsert_user_fst_userStates, hrow, if_neg hactive]

/-! ### Composite-operation lemmas -/

theorem pyOr_of_text (m : Msg) (t : String) (ht : m.text = some t) (ht0 : t ≠ "") :
    pyOr m.text m.caption = some t := by
  unfold pyOr
  rw [ht]
  dsimp only
  rw [if_neg ht0]

theorem archiveWithContext_fst_messages (st : Archive) (update_id : Int) (m : Msg)
    (sid : Int) (u : Nat) (ctx : Option String) :
    (archiveWithContext st update_id m sid u ctx).1.messages =
      st.messages ++ [archivedRow st update_id m u ctx] := by
  unfold archiveWithContext
  rw [mediaFanout_fst_messages]
  rfl

theorem archiveWithContext_fst_userStates (st : Archive) (update_id : Int) (m : Msg)
    (sid : Int) (u : Nat) (ctx : Option String) :
    (archiveWithContext st update_id m sid u ctx).1.userStates = st.userStates := by
  unfold archiveWithContext
  rw [mediaFanout_fst_userStates]
  rfl

theorem archiveWithContext_fst_sent (st : Archive) (update_id : Int) (m : Msg)
    (sid : Int) (u : Nat) (ctx : Option String) :
    (archiveWithContext st update_id m sid u ctx).1.sent = st.sent := by
  unfold archiveWithContext
  rw [mediaFanout_fst_sent]
  rfl

theorem mediaFanout_locationOnly (st : Archive) (mid : Nat) (sid : Int) (m : Msg)
    (loc : Loc)
    (hl : m.location = some loc) (hp : m.photo = []) (ha : m.audio = none)
    (hv : m.voice = none) (hvi : m.video = none) (hd : m.document = none)
    (hs : m.sticker = none) :
    mediaFanout st mid sid m = (insert_media st (locationRow mid loc), false) := by
  unfold mediaFanout seqB locationPart photoPart audioPart voicePart videoPart
    documentPart stickerPart
  rw [hl, hp, ha, hv, hvi, hd, hs]
  rfl

theorem archiveWithContext_locationOnly_media (st : Archive) (update_id : Int)
    (m : Msg) (sid : Int) (u : Nat) (ctx : Option String) (loc : Loc)
    (hl : m.location = some loc) (hp : m.photo = []) (ha : m.audio = none)
    (hv : m.voice = none) (hvi : m.video = none) (hd : m.document = none)
    (hs : m.sticker = none) :
    (archiveWithContext st update_id m sid u ctx).1.media =
      st.media ++ [locationRow st.nextMessageId loc] ∧
    (archiveWithContext st update_id m sid u ctx).2 = false := by
  unfold archiveWithContext
  rw [mediaFanout_locationOnly _ _ _ _ loc hl hp ha hv hvi hd hs]
  exact ⟨rfl, rfl⟩

theorem archiveWithContext_noAttach (st : Archive) (update_id : Int) (m : Msg)
    (sid : Int) (u : Nat) (ctx : Option String)
    (hl : m.location = none) (hp : m.photo = []) (ha : m.audio = none)
    (hv : m.voice = none) (hvi : m.video = none) (hd : m.document = none)
    (hs : m.sticker = none) :
    archiveWithContext st update_id m sid u ctx =
      ((insert_message st update_id m u ctx).1, false) := by
  unfold archiveWithContext
  rw [mediaFanout_noAttachments _ _ _ _ hl hp ha hv hvi hd hs]

theorem lookupState_mem (l : List (Nat × UserStateRow)) (uid : Nat)
    (row : UserStateRow) (h : lookupState l uid = some row) : (uid, row) ∈ l := by
  induction l with
  | nil => exact absurd h (by rw [lookupState]; exact Option.noConfusion)
  | cons p l ih =>
    rw [lookupState] at h
    by_cases hk : p.1 = uid
    · rw [if_pos hk] at h
      have : p.2 = row := Option.some.inj h
      have hp : p = (uid, row) := by
        cases p
        simp only at hk this
        rw [hk, this]
      rw [← hp]
      exact List.mem_cons_self p l
    · rw [if_neg hk] at h
      exact List.mem_cons_of_mem p (ih h)

/-! ### Invariant-preservation helpers -/

theorem mediaInvL_append (l₁ l₂ : List MediaRow) (h₁ : mediaInvL l₁)
    (h₂ : mediaInvL l₂) : mediaInvL (l₁ ++ l₂) := by
  intro r hr
  rcases List.mem_append.1 hr with hr | hr
  · exact h₁ r hr
  · exact h₂ r hr

theorem insert_media_mediaInv (s : Archive) (r : MediaRow) (h : mediaInv s)
    (hr : mediaRowOk r) : mediaInv (insert_media s r) := by
  unfold insert_media mediaInv
  exact mediaInvL_append _ _ h (fun x hx => by
    rw [List.mem_singleton] at hx
    rw [hx]
    exact hr)

theorem stateInvL_putState (l : List (Nat × UserStateRow)) (uid : Nat)
    (row : UserStateRow) (h : stateInvL l)
    (hrow : row.current_state = some "survey_active" →
      row.answers.length = row.current_step ∧
      row.current_step < QUESTION_BANK.length) :
    stateInvL (putState l uid row) := by
  induction l with
  | nil =>
    intro p hp
    rw [putState, List.mem_singleton] at hp
    rw [hp]
    exact hrow
  | cons q l ih =>
    intro p hp
    rw [putState] at hp
    by_cases hk : q.1 = uid
    · rw [if_pos hk] at hp
      rcases List.mem_cons.1 hp with hp | hp
      · rw [hp]
        exact hrow
      · exact h p (List.mem_cons_of_mem q hp)
    · rw [if_neg hk] at hp
      rcases List.mem_cons.1 hp with hp | hp
      · rw [hp]
        exact h q (List.mem_cons_self q l)
      · exact ih (fun x hx => h x (List.mem_cons_of_mem q hx)) p hp

theorem stateInvL_mapState (l : List (Nat × UserStateRow)) (uid : Nat)
    (g : UserStateRow → UserStateRow) (h : stateInvL l)
    (hg : ∀ r, (g r).current_state = some "survey_active" →
      (g r).answers.length = (g r).current_step ∧
      (g r).current_step < QUESTION_BANK.length) :
    stateInvL (mapState l uid g) := by
  induction l with
  | nil =>
    intro p hp
    exact absurd hp (by rw [mapState]; exact List.not_mem_nil p)
  | cons q l ih =>
    intro p hp
    rw [mapState] at hp
    rcases List.mem_cons.1 hp with hp | hp
    · by_cases hk : q.1 = uid
      · rw [if_pos hk] at hp
        rw [hp]
        exact hg q.2
      · rw [if_neg hk] at hp
        rw [hp]
        exact h q (List.mem_cons_self q l)
    · exact ih (fun x hx => h x (List.mem_cons_of_mem q hx)) p hp

/-! ### Definitional frame lemmas for the simple operations -/

theorem send_message_messages (s : Archive) (c : Int) (t : String) :
    (send_message s c t).messages = s.messages := rfl

theorem send_message_media (s : Archive) (c : Int) (t : String) :
    (send_message s c t).media = s.media := rfl

theorem send_message_userStates (s : Archive) (c : Int) (t : String) :
    (send_message s c t).userStates = s.userStates := rfl

theorem send_message_nextMessageId (s : Archive) (c : Int) (t : String) :
    (send_message s c t).nextMessageId = s.nextMessageId := rfl

theorem send_message_sent (s : Archive) (c : Int) (t : String) :
    (send_message s c t).sent = s.sent ++ [(c, t)] := rfl

theorem advanceState_messages (s : Archive) (uid ns : Nat) (a : List String) :
    (advanceState s uid ns a).messages = s.messages := rfl

theorem advanceState_media (s : Archive) (uid ns : Nat) (a : List String) :
    (advanceState s uid ns a).media = s.media := rfl

theorem advanceState_sent (s : Archive) (uid ns : Nat) (a : List String) :
    (advanceState s uid ns a).sent = s.sent := rfl

theorem advanceState_nextMessageId (s : Archive) (uid ns : Nat) (a : List String) :
    (advanceState s uid ns a).nextMessageId = s.nextMessageId := rfl

theorem advanceState_userStates (s : Archive) (uid ns : Nat) (a : List String) :
    (advanceState s uid ns a).userStates =
      mapState s.userStates uid
        (fun r => { r with current_step := ns, answers := a }) := rfl

theorem clearState_messages (s : Archive) (uid : Nat) :
    (clearState s uid).messages = s.messages := rfl

theorem clearState_media (s : Archive) (uid : Nat) :
    (clearState s uid).media = s.media := rfl

theorem clearState_sent (s : Archive) (uid : Nat) :
    (clearState s uid).sent = s.sent := rfl

theorem clearState_nextMessageId (s : Archive) (uid : Nat) :
    (clearState s uid).nextMessageId = s.nextMessageId := rfl

theorem clearState_userStates (s : Archive) (uid : Nat) :
    (clearState s uid).userStates =
      mapState s.userStates uid
        (fun r => { r with current_state := none, current_step := 0 }) := rfl

theorem startState_messages (s : Archive) (uid : Nat) :
    (startState s uid).messages = s.messages := rfl

theorem startState_media (s : Archive) (uid : Nat) :
    (startState s uid).media = s.media := rfl

theorem startState_sent (s : Archive) (uid : Nat) :
    (startState s uid).sent = s.sent := rfl

theorem startState_nextMessageId (s : Archive) (uid : Nat) :
    (startState s uid).nextMessageId = s.nextMessageId := rfl

theorem startState_userStates (s : Archive) (uid : Nat) :
    (startState s uid).userStates =
      putState s.userStates uid
        { current_state := some "survey_active", current_step := 0, answers := [] } := rfl

theorem insert_message_fst_messages (st : Archive) (a : Int) (m : Msg) (u : Nat)
    (c : Option String) :
    (insert_message st a m u c).1.messages = st.messages ++ [archivedRow st a m u c] := rfl

theorem insert_message_fst_media (st : Archive) (a : Int) (m : Msg) (u : Nat)
    (c : Option String) :
    (insert_message st a m u c).1.media = st.media := rfl

theorem insert_message_fst_userStates (st : Archive) (a : Int) (m : Msg) (u : Nat)
    (c : Option String) :
    (insert_message st a m u c).1.userStates = st.userStates := rfl

theorem insert_message_fst_sent (st : Archive) (a : Int) (m : Msg) (u : Nat)
    (c : Option String) :
    (insert_message st a m u c).1.sent = st.sent := rfl

theorem insert_media_media (s : Archive) (r : MediaRow) :
    (insert_media s r).media = s.media ++ [r] := rfl

/-! ## The claims -/

/-- C1 (code_bug evidence): the spec says the cursor advances to the maximum
update id over the whole batch, counting updates whose processing raised.  On
the batch `[id 5, id 6, id 7]` where update 7 raises inside `bot.get_file`,
`main` skips the tracking line for update 7 (it sits inside the `try` block
after `process_update`), so the stored cursor ends at 6, not 7. -/
theorem c1_cursor_eval :
    (run_batch emptyArchive [c1u5, c1u6, c1u7]).lastUpdateId = some 6 ∧
    (run_batch emptyArchive [c1u5, c1u6, c1u7]).lastUpdateId ≠ some 7 := by
  have h : (run_batch emptyArchive [c1u5, c1u6, c1u7]).lastUpdateId = some 6 := by rfl
  refine ⟨h, ?_⟩
  rw [h]
  decide

/-- C6: an update whose message has no resolvable sender is a complete no-op
on the archive (no Message, no Media, no user upsert, no state change, no
reply, no raise), and the batch loop then applies to its id exactly the same
tracking rule it applies to a successfully processed update. -/
theorem c6_no_sender_noop (st : Archive) (upd : Update) (msg : Msg)
    (hm : pyMsgOr upd.message upd.edited_message = some msg)
    (hu : msg.from_user = none) :
    process_update st upd = (st, false) ∧
    ∀ m : Int, runStep (st, m) upd =
      (st, if upd.update_id ≠ 0 ∧ m < upd.update_id then upd.update_id else m) := by
  have h := process_update_no_sender st upd msg hm hu
  refine ⟨h, fun m => ?_⟩
  unfold runStep
  rw [h]
  dsimp only
  rw [if_neg Bool.false_ne_true]
  by_cases hc : upd.update_id ≠ 0 ∧ m < upd.update_id
  · rw [if_pos hc, if_pos hc]
  · rw [if_neg hc, if_neg hc]

/-- Witness for C6 at a concrete sender-less update and accumulator 3. -/
theorem c6_no_sender_noop_witness :
    process_update emptyArchive c6Upd = (emptyArchive, false) ∧
    runStep (emptyArchive, 3) c6Upd = (emptyArchive, 9) := by
  have h := c6_no_sender_noop emptyArchive c6Upd (bareMsg 1 7 none) rfl rfl
  refine ⟨h.1, ?_⟩
  rw [h.2 3]
  rfl

/-- C2: a text answer while the survey is active at step `i` with `i + 1 < N`
persists exactly one Message annotated with question `i`, overwrites the state
row to step `i + 1` with the body appended to the answers, and replies with
question `i + 1`. -/
theorem c2_active_text_advances (st : Archive) (upd : Update) (msg : Msg)
    (u : TgUser) (i : Nat) (ans : List String) (t : String)
    (hm : pyMsgOr upd.message upd.edited_message = some msg)
    (hu : msg.from_user = some u)
    (ht : msg.text = some t) (ht0 : t ≠ "")
    (hcmd : pyStrip t ≠ "/start_trip")
    (hrow : lookupState st.userStates (upsert_user st u).2 =
      some { current_state := some "survey_active", current_step := i, answers := ans })
    (hi : i + 1 < QUESTION_BANK.length) :
    (process_update st upd).1.messages = st.messages ++
        [{ id := st.nextMessageId, telegram_message_id := msg.message_id,
           update_id := upd.update_id, user_id := (upsert_user st u).2,
           chat_id := msg.chat_id, text := some t,
           survey_question := some (QUESTION_BANK.getD i "") }] ∧
      lookupState (process_update st upd).1.userStates (upsert_user st u).2 =
        some { current_state := some "survey_active", current_step := i + 1,
               answers := ans ++ [t] } ∧
      (process_update st upd).1.sent = st.sent ++
        [(msg.chat_id,
          "Question " ++ toString (i + 1 + 1) ++ ": " ++ QUESTION_BANK.getD (i + 1) "")] := by
  have htext := messageText_of_text msg t ht ht0
  have hcmd' : ¬ pyStrip (messageText msg) = "/start_trip" := by
    rw [htext]
    exact hcmd
  rw [process_update_advance st upd msg u _ hm hu hcmd' hrow rfl hi]
  refine ⟨?_, ?_, ?_⟩
  · rw [archiveWithContext_fst_messages]
    unfold archivedRow
    rw [send_message_messages, advanceState_messages, upsert_user_fst_messages,
      send_message_nextMessageId, advanceState_nextMessageId,
      upsert_user_fst_nextMessageId, pyOr_of_text msg t ht ht0]
  · rw [archiveWithContext_fst_userStates, send_message_userStates,
      advanceState_userStates, upsert_user_fst_userStates,
      lookupState_mapState_self, hrow, htext]
    rfl
  · rw [archiveWithContext_fst_sent, send_message_sent, advanceState_sent,
      upsert_user_fst_sent]

/-- Witness for C2: Alice at step 0 answers "Goa". -/
theorem c2_active_text_advances_witness :
    lookupState w2St.userStates (upsert_user w2St tgAlice).2 =
      some { current_state := some "survey_active", current_step := 0, answers := [] } ∧
    (process_update w2St w2Upd).1.messages = w2St.messages ++
      [{ id := 1, telegram_message_id := 11, update_id := 10, user_id := 1,
         chat_id := 7, text := some "Goa",
         survey_question := some (QUESTION_BANK.getD 0 "") }] ∧
    lookupState (process_update w2St w2Upd).1.userStates (upsert_user w2St tgAlice).2 =
      some { current_state := some "survey_active", current_step := 1,
             answers := ["Goa"] } ∧
    (process_update w2St w2Upd).1.sent =
      [(7, "Question " ++ toString 2 ++ ": " ++ QUESTION_BANK.getD 1 "")] := by
  have h := c2_active_text_advances w2St w2Upd
    { bareMsg 11 7 (some tgAlice) with text := some "Goa" } tgAlice 0 [] "Goa"
    rfl rfl rfl (by decide) (by decide) rfl (by decide)
  exact ⟨rfl, h.1, h.2.1, h.2.2⟩

/-- C3: a text answer while the survey is active at the last step `N - 1`
persists exactly one Message annotated with question `N - 1`, clears the state
row to IDLE (state NULL, step 0), and replies with a summary that pairs all
`N` questions with the collected answers in question-list order. -/
theorem c3_final_text_completes (st : Archive) (upd : Update) (msg : Msg)
    (u : TgUser) (i : Nat) (ans : List String) (t : String)
    (hm : pyMsgOr upd.message upd.edited_message = some msg)
    (hu : msg.from_user = some u)
    (ht : msg.text = some t) (ht0 : t ≠ "")
    (hcmd : pyStrip t ≠ "/start_trip")
    (hrow : lookupState st.userStates (upsert_user st u).2 =
      some { current_state := some "survey_active", current_step := i, answers := ans })
    (hi : i + 1 = QUESTION_BANK.length)
    (hlen : ans.length = i) :
    (process_update st upd).1.messages = st.messages ++
        [{ id := st.nextMessageId, telegram_message_id := msg.message_id,
           update_id := upd.update_id, user_id := (upsert_user st u).2,
           chat_id := msg.chat_id, text := some t,
           survey_question := some (QUESTION_BANK.getD i "") }] ∧
      lookupState (process_update st upd).1.userStates (upsert_user st u).2 =
        some { current_state := none, current_step := 0, answers := ans } ∧
      (process_update st upd).1.sent = st.sent ++
        [(msg.chat_id,
          "Survey Complete! Here is your summary:\n\n" ++
            String.intercalate "\n"
              ((QUESTION_BANK.zip (ans ++ [t])).map
                (fun p => "Q: " ++ p.1 ++ "\nA: " ++ p.2)))] ∧
      (QUESTION_BANK.zip (ans ++ [t])).length = QUESTION_BANK.length ∧
      (QUESTION_BANK.zip (ans ++ [t])).map Prod.fst = QUESTION_BANK := by
  have htext := messageText_of_text msg t ht ht0
  have hcmd' : ¬ pyStrip (messageText msg) = "/start_trip" := by
    rw [htext]
    exact hcmd
  have hstep0 : i < QUESTION_BANK.length := by
    rw [← hi]
    exact Nat.lt_succ_self i
  have hstep : ¬ i + 1 < QUESTION_BANK.length := by
    rw [← hi]
    exact Nat.lt_irrefl (i + 1)
  have hlent : (ans ++ [t]).length = QUESTION_BANK.length := by
    rw [List.length_append, hlen, List.length_singleton, hi]
  rw [process_update_final st upd msg u _ hm hu hcmd' hrow rfl hstep0 hstep]
  refine ⟨?_, ?_, ?_, ?_, ?_⟩
  · rw [archiveWithContext_fst_messages]
    unfold archivedRow
    rw [send_message_messages, clearState_messages, upsert_user_fst_messages,
      send_message_nextMessageId, clearState_nextMessageId,
      upsert_user_fst_nextMessageId, pyOr_of_text msg t ht ht0]
  · rw [archiveWithContext_fst_userStates, send_message_userStates,
      clearState_userStates, upsert_user_fst_userStates,
      lookupState_mapState_self, hrow]
    rfl
  · rw [archiveWithContext_fst_sent, send_message_sent, clearState_sent,
      upsert_user_fst_sent, htext]
  · rw [List.length_zip, hlent, Nat.min_self]
  · exact List.map_fst_zip QUESTION_BANK (ans ++ [t]) (le_of_eq hlent.symm)

/-- Witness for C3: Alice at step 2 (of 3) answers "Tiger". -/
theorem c3_final_text_completes_witness :
    lookupState w3St.userStates (upsert_user w3St tgAlice).2 =
      some { current_state := some "survey_active", current_step := 2,
             answers := ["a", "b"] } ∧
    (process_update w3St w3Upd).1.messages = w3St.messages ++
      [{ id := 1, telegram_message_id := 13, update_id := 12, user_id := 1,
         chat_id := 7, text := some "Tiger",
         survey_question := some (QUESTION_BANK.getD 2 "") }] ∧
    lookupState (process_update w3St w3Upd).1.userStates (upsert_user w3St tgAlice).2 =
      some { current_state := none, current_step := 0, answers := ["a", "b"] } ∧
    (QUESTION_BANK.zip (["a", "b"] ++ ["Tiger"])).map Prod.fst = QUESTION_BANK := by
  have h := c3_final_text_completes w3St w3Upd
    { bareMsg 13 7 (some tgAlice) with text := some "Tiger" } tgAlice 2 ["a", "b"]
    "Tiger" rfl rfl rfl (by decide) (by decide) rfl (by decide) (by decide)
  exact ⟨rfl, h.1, h.2.1, h.2.2.2.2⟩

/-- C5 counterexample: Alice is active at the last step with stored answers
`["a", "b"]` and sends the final answer `"c"`; the state row is cleared
without persisting the appended answers, so the stored list still lacks the
newly appended body, refuting the claim for the final answer. -/
theorem c5_counterexample :
    lookupState (process_update c5St c5Upd).1.userStates 1 =
      some { current_state := none, current_step := 0, answers := ["a", "b"] } ∧
    ¬ "c" ∈ (["a", "b"] : List String) := by
  exact ⟨rfl, by decide⟩

/-- C5 amended: a non-final answer overwrites the state row in place with the
body appended to the stored answers; the final answer instead clears the row
(state NULL, step 0) leaving the stored answers unchanged, the final body
appearing only in the summary reply. -/
theorem c5_answer_overwrite (st : Archive) (upd : Update) (msg : Msg)
    (u : TgUser) (i : Nat) (ans : List String) (t : String)
    (hm : pyMsgOr upd.message upd.edited_message = some msg)
    (hu : msg.from_user = some u)
    (ht : msg.text = some t) (ht0 : t ≠ "")
    (hcmd : pyStrip t ≠ "/start_trip")
    (hrow : lookupState st.userStates (upsert_user st u).2 =
      some { current_state := some "survey_active", current_step := i, answers := ans })
    (hiN : i < QUESTION_BANK.length) :
    (i + 1 < QUESTION_BANK.length →
      lookupState (process_update st upd).1.userStates (upsert_user st u).2 =
        some { current_state := some "survey_active", current_step := i + 1,
               answers := ans ++ [t] }) ∧
    (¬ i + 1 < QUESTION_BANK.length →
      lookupState (process_update st upd).1.userStates (upsert_user st u).2 =
        some { current_state := none, current_step := 0, answers := ans } ∧
      (process_update st upd).1.sent = st.sent ++
        [(msg.chat_id,
          "Survey Complete! Here is your summary:\n\n" ++
            String.intercalate "\n"
              ((QUESTION_BANK.zip (ans ++ [t])).map
                (fun p => "Q: " ++ p.1 ++ "\nA: " ++ p.2)))]) := by
  have htext := messageText_of_text msg t ht ht0
  have hcmd' : ¬ pyStrip (messageText msg) = "/start_trip" := by
    rw [htext]
    exact hcmd
  constructor
  · intro hstep
    rw [process_update_advance st upd msg u _ hm hu hcmd' hrow rfl hstep,
      archiveWithContext_fst_userStates, send_message_userStates,
      advanceState_userStates, upsert_user_fst_userStates,
      lookupState_mapState_self, hrow, htext]
    rfl
  · intro hstep
    rw [process_update_final st upd msg u _ hm hu hcmd' hrow rfl hiN hstep]
    constructor
    · rw [archiveWithContext_fst_userStates, send_message_userStates,
        clearState_userStates, upsert_user_fst_userStates,
        lookupState_mapState_self, hrow]
      rfl
    · rw [archiveWithContext_fst_sent, send_message_sent, clearState_sent,
        upsert_user_fst_sent, htext]

/-- Witness for C5 (amended) at a non-final answer: Alice at step 0 answers
"x" and the stored row now carries it. -/
theorem c5_answer_overwrite_witness :
    (0 + 1 < QUESTION_BANK.length) ∧
    lookupState (process_update c5WSt c5WUpd).1.userStates
        (upsert_user c5WSt tgAlice).2 =
      some { current_state := some "survey_active", current_step := 0 + 1,
             answers := [] ++ ["x"] } := by
  refine ⟨by decide, ?_⟩
  exact (c5_answer_overwrite c5WSt c5WUpd
    { bareMsg 17 7 (some tgAlice) with text := some "x" } tgAlice 0 [] "x"
    rfl rfl rfl (by decide) (by decide) rfl (by decide)).1 (by decide)

/-- C4 counterexample: the body `" /start_trip"` is not exactly the literal
token, yet interception fires — the state is (re)initialized, the first
question is sent, and no Media row is created for the attached location —
because the code compares `text.strip()`, not `text`, with the token. -/
theorem c4_counterexample :
    messageText c4Msg = " /start_trip" ∧
    " /start_trip" ≠ "/start_trip" ∧
    lookupState (process_update emptyArchive c4Upd).1.userStates 1 =
      some { current_state := some "survey_active", current_step := 0, answers := [] } ∧
    (process_update emptyArchive c4Upd).1.media = [] ∧
    (process_update emptyArchive c4Upd).1.sent =
      [(7, "Question 1: " ++ QUESTION_BANK.getD 0 "")] := by
  exact ⟨rfl, by decide, rfl, rfl, rfl⟩

/-- C4 amended: interception fires iff the body stripped of surrounding
whitespace equals `/start_trip`; when it fires — from IDLE or from any
active step — the state is reset to {active, step 0, empty answers}, the
first question is sent, the Message is persisted with a NULL survey-question
annotation, and no Media row is created for attachments; when it does not
fire, an attached location does produce its Media row. -/
theorem c4_strip_command (st : Archive) (upd : Update) (msg : Msg) (u : TgUser)
    (loc : Loc)
    (hm : pyMsgOr upd.message upd.edited_message = some msg)
    (hu : msg.from_user = some u)
    (hloc : msg.location = some loc) (hp : msg.photo = []) (ha : msg.audio = none)
    (hv : msg.voice = none) (hvi : msg.video = none) (hd : msg.document = none)
    (hs : msg.sticker = none)
    (hguard : ∀ row, lookupState st.userStates (upsert_user st u).2 = some row →
      row.current_state = some "survey_active" →
      row.current_step < QUESTION_BANK.length) :
    (pyStrip (messageText msg) = "/start_trip" →
      lookupState (process_update st upd).1.userStates (upsert_user st u).2 =
        some { current_state := some "survey_active", current_step := 0, answers := [] } ∧
      (process_update st upd).1.sent = st.sent ++
        [(msg.chat_id, "Question 1: " ++ QUESTION_BANK.getD 0 "")] ∧
      (process_update st upd).1.messages = st.messages ++
        [archivedRow st upd.update_id msg (upsert_user st u).2 none] ∧
      (process_update st upd).1.media = st.media ∧
      (process_update st upd).2 = false) ∧
    (¬ pyStrip (messageText msg) = "/start_trip" →
      (process_update st upd).1.media =
        st.media ++ [locationRow st.nextMessageId loc]) := by
  constructor
  · intro hcmd
    rw [process_update_command st upd msg u hm hu hcmd]
    refine ⟨?_, ?_, ?_, ?_, rfl⟩
    · rw [insert_message_fst_userStates, send_message_userStates,
        startState_userStates, upsert_user_fst_userStates, lookupState_putState_self]
    · rw [insert_message_fst_sent, send_message_sent, startState_sent,
        upsert_user_fst_sent]
    · rw [insert_message_fst_messages]
      unfold archivedRow
      rw [send_message_messages, startState_messages, upsert_user_fst_messages,
        send_message_nextMessageId, startState_nextMessageId,
        upsert_user_fst_nextMessageId]
    · rw [insert_message_fst_media, send_message_media, startState_media,
        upsert_user_fst_media]
  · intro hcmd
    rcases hrow : lookupState st.userStates (upsert_user st u).2 with _ | row
    · rw [process_update_no_state st upd msg u hm hu hcmd hrow,
        (archiveWithContext_locationOnly_media _ _ _ _ _ _ loc
          hloc hp ha hv hvi hd hs).1,
        upsert_user_fst_media, upsert_user_fst_nextMessageId]
    · by_cases hact : row.current_state = some "survey_active"
      · have hlt := hguard row hrow hact
        by_cases hstep : row.current_step + 1 < QUESTION_BANK.length
        · rw [process_update_advance st upd msg u row hm hu hcmd hrow hact hstep,
            (archiveWithContext_locationOnly_media _ _ _ _ _ _ loc
              hloc hp ha hv hvi hd hs).1,
            send_message_media, advanceState_media, upsert_user_fst_media,
            send_message_nextMessageId, advanceState_nextMessageId,
            upsert_user_fst_nextMessageId]
        · rw [process_update_final st upd msg u row hm hu hcmd hrow hact hlt hstep,
            (archiveWithContext_locationOnly_media _ _ _ _ _ _ loc
              hloc hp ha hv hvi hd hs).1,
            send_message_media, clearState_media, upsert_user_fst_media,
            send_message_nextMessageId, clearState_nextMessageId,
            upsert_user_fst_nextMessageId]
      · rw [process_update_inactive st upd msg u row hm hu hcmd hrow hact,
          (archiveWithContext_locationOnly_media _ _ _ _ _ _ loc
            hloc hp ha hv hvi hd hs).1,
          upsert_user_fst_media, upsert_user_fst_nextMessageId]

/-- Witness for C4 (amended): the padded command fires interception on an
empty archive and drops the location attachment. -/
theorem c4_strip_command_witness :
    pyStrip (messageText c4Msg) = "/start_trip" ∧
    lookupState (process_update emptyArchive c4Upd).1.userStates
        (upsert_user emptyArchive tgAlice).2 =
      some { current_state := some "survey_active", current_step := 0, answers := [] } ∧
    (process_update emptyArchive c4Upd).1.media = emptyArchive.media := by
  have h := (c4_strip_command emptyArchive c4Upd c4Msg tgAlice locBerlin
    rfl rfl rfl rfl rfl rfl rfl rfl rfl
    (fun row hr => Option.noConfusion hr)).1 (by decide)
  exact ⟨by decide, h.1, h.2.2.2.1⟩

/-! ### Single-attachment messages -/

theorem msgWithAttachment_from_user (k : FileKind) (f : FileRef) (m : Msg) :
    (msgWithAttachment k f m).from_user = m.from_user := by
  cases k <;> rfl

theorem msgWithAttachment_text (k : FileKind) (f : FileRef) (m : Msg) :
    (msgWithAttachment k f m).text = m.text := by
  cases k <;> rfl

theorem msgWithAttachment_caption (k : FileKind) (f : FileRef) (m : Msg) :
    (msgWithAttachment k f m).caption = m.caption := by
  cases k <;> rfl

theorem msgWithAttachment_message_id (k : FileKind) (f : FileRef) (m : Msg) :
    (msgWithAttachment k f m).message_id = m.message_id := by
  cases k <;> rfl

theorem msgWithAttachment_chat_id (k : FileKind) (f : FileRef) (m : Msg) :
    (msgWithAttachment k f m).chat_id = m.chat_id := by
  cases k <;> rfl

theorem insert_message_snd (st : Archive) (a : Int) (m : Msg) (u : Nat)
    (c : Option String) : (insert_message st a m u c).2 = st.nextMessageId := rfl

theorem mediaFanout_singleKind (st : Archive) (mid : Nat) (sid : Int) (k : FileKind)
    (f : FileRef) (b chat : Int) (u : Option TgUser) (hget : f.getFileOk = true) :
    mediaFanout st mid sid (msgWithAttachment k f (bareMsg b chat u)) =
      (insert_media st (fileMediaRow k f mid sid b), false) := by
  cases k <;>
    (unfold msgWithAttachment mediaFanout seqB locationPart photoPart audioPart
      voicePart videoPart documentPart stickerPart fileMediaRow
     dsimp only [bareMsg, List.getLast?, List.getLast]
     rw [hget]
     rfl)

/-- C7: for every file-bearing media kind, a failed byte relay is swallowed:
processing completes without raising, the Message row is persisted as usual,
and a Media row of that kind is still inserted, carrying byte size 0 and a
storage key. -/
theorem c7_relay_failure_swallowed (st : Archive) (k : FileKind) (f : FileRef)
    (u : TgUser) (mid chat updId : Int)
    (hrow : lookupState st.userStates (upsert_user st u).2 = none)
    (hget : f.getFileOk = true) (hrelay : f.relayOk = false) :
    (process_update st
        (mkUpdate updId (msgWithAttachment k f (bareMsg mid chat (some u))))).2 = false ∧
    (process_update st
        (mkUpdate updId (msgWithAttachment k f (bareMsg mid chat (some u))))).1.messages =
      st.messages ++
        [{ id := st.nextMessageId, telegram_message_id := mid, update_id := updId,
           user_id := (upsert_user st u).2, chat_id := chat, text := none,
           survey_question := none }] ∧
    (process_update st
        (mkUpdate updId (msgWithAttachment k f (bareMsg mid chat (some u))))).1.media =
      st.media ++ [fileMediaRow k f st.nextMessageId u.id mid] ∧
    (fileMediaRow k f st.nextMessageId u.id mid).media_type = kindName k ∧
    (fileMediaRow k f st.nextMessageId u.id mid).file_size = some 0 ∧
    (fileMediaRow k f st.nextMessageId u.id mid).file_path.isSome = true := by
  have hu' : (msgWithAttachment k f (bareMsg mid chat (some u))).from_user = some u := by
    rw [msgWithAttachment_from_user]
    rfl
  have htext : messageText (msgWithAttachment k f (bareMsg mid chat (some u))) = "" := by
    unfold messageText
    rw [msgWithAttachment_text, msgWithAttachment_caption]
    rfl
  have hcmd : ¬ pyStrip (messageText (msgWithAttachment k f (bareMsg mid chat (some u)))) =
      "/start_trip" := by
    rw [htext]
    decide
  have hnostate := process_update_no_state st
    (mkUpdate updId (msgWithAttachment k f (bareMsg mid chat (some u))))
    (msgWithAttachment k f (bareMsg mid chat (some u))) u rfl hu' hcmd hrow
  rw [hnostate]
  dsimp only [mkUpdate]
  have hf := mediaFanout_singleKind
    (insert_message (upsert_user st u).1 updId
      (msgWithAttachment k f (bareMsg mid chat (some u))) (upsert_user st u).2 none).1
    (insert_message (upsert_user st u).1 updId
      (msgWithAttachment k f (bareMsg mid chat (some u))) (upsert_user st u).2 none).2
    u.id k f mid chat (some u) hget
  refine ⟨?_, ?_, ?_, ?_, ?_, ?_⟩
  · unfold archiveWithContext
    dsimp only
    rw [hf]
  · rw [archiveWithContext_fst_messages]
    unfold archivedRow
    rw [upsert_user_fst_messages, upsert_user_fst_nextMessageId,
      msgWithAttachment_message_id, msgWithAttachment_chat_id,
      msgWithAttachment_text, msgWithAttachment_caption]
    rfl
  · unfold archiveWithContext
    dsimp only
    rw [hf, insert_media_media, insert_message_fst_media, insert_message_snd,
      upsert_user_fst_media, upsert_user_fst_nextMessageId]
  · cases k <;> rfl
  · cases k <;>
      (unfold fileMediaRow upload_telegram_file_to_s3
       rw [hrelay]
       rfl)
  · cases k <;> rfl

/-- Witness for C7 at kind `photo` with the failing-relay file handle. -/
theorem c7_relay_failure_swallowed_witness :
    failingRelay.getFileOk = true ∧ failingRelay.relayOk = false ∧
    (process_update emptyArchive
        (mkUpdate 31 (msgWithAttachment .photo failingRelay (bareMsg 30 7 (some tgAlice))))).2 =
      false ∧
    (process_update emptyArchive
        (mkUpdate 31 (msgWithAttachment .photo failingRelay (bareMsg 30 7 (some tgAlice))))).1.media =
      emptyArchive.media ++ [fileMediaRow .photo failingRelay 1 100 30] ∧
    (fileMediaRow .photo failingRelay 1 100 30).file_size = some 0 := by
  have h := c7_relay_failure_swallowed emptyArchive .photo failingRelay tgAlice
    30 7 31 rfl rfl rfl
  exact ⟨rfl, rfl, h.1, h.2.2.1, h.2.2.2.2.1⟩

/-! ### Media-shape preservation through the fan-out -/

theorem locationPart_mediaInv (st : Archive) (mid : Nat) (m : Msg)
    (h : mediaInv st) : mediaInv (locationPart st mid m) := by
  unfold locationPart
  cases m.location
  · exact h
  · exact insert_media_mediaInv _ _ h (Or.inl ⟨rfl, rfl, rfl, rfl⟩)

theorem photoPart_mediaInv (st : Archive) (mid : Nat) (sid : Int) (m : Msg)
    (h : mediaInv st) : mediaInv (photoPart st mid sid m).1 := by
  unfold photoPart
  cases m.photo.getLast?
  · exact h
  · dsimp only
    split
    · refine insert_media_mediaInv _ _ h (Or.inr ⟨?_, rfl, rfl, rfl⟩)
      show ("photo" : String) ∈ ["photo", "audio", "voice", "video", "document", "sticker"]
      decide
    · exact h

theorem audioPart_mediaInv (st : Archive) (mid : Nat) (sid : Int) (m : Msg)
    (h : mediaInv st) : mediaInv (audioPart st mid sid m).1 := by
  unfold audioPart
  cases m.audio
  · exact h
  · dsimp only
    split
    · refine insert_media_mediaInv _ _ h (Or.inr ⟨?_, rfl, rfl, rfl⟩)
      show ("audio" : String) ∈ ["photo", "audio", "voice", "video", "document", "sticker"]
      decide
    · exact h

theorem voicePart_mediaInv (st : Archive) (mid : Nat) (sid : Int) (m : Msg)
    (h : mediaInv st) : mediaInv (voicePart st mid sid m).1 := by
  unfold voicePart
  cases m.voice
  · exact h
  · dsimp only
    split
    · refine insert_media_mediaInv _ _ h (Or.inr ⟨?_, rfl, rfl, rfl⟩)
      show ("voice" : String) ∈ ["photo", "audio", "voice", "video", "document", "sticker"]
      decide
    · exact h

theorem videoPart_mediaInv (st : Archive) (mid : Nat) (sid : Int) (m : Msg)
    (h : mediaInv st) : mediaInv (videoPart st mid sid m).1 := by
  unfold videoPart
  cases m.video
  · exact h
  · dsimp only
    split
    · refine insert_media_mediaInv _ _ h (Or.inr ⟨?_, rfl, rfl, rfl⟩)
      show ("video" : String) ∈ ["photo", "audio", "voice", "video", "document", "sticker"]
      decide
    · exact h

theorem documentPart_mediaInv (st : Archive) (mid : Nat) (sid : Int) (m : Msg)
    (h : mediaInv st) : mediaInv (documentPart st mid sid m).1 := by
  unfold documentPart
  cases m.document
  · exact h
  · dsimp only
    split
    · refine insert_media_mediaInv _ _ h (Or.inr ⟨?_, rfl, rfl, rfl⟩)
      show ("document" : String) ∈ ["photo", "audio", "voice", "video", "document", "sticker"]
      decide
    · exact h

theorem stickerPart_mediaInv (st : Archive) (mid : Nat) (sid : Int) (m : Msg)
    (h : mediaInv st) : mediaInv (stickerPart st mid sid m).1 := by
  unfold stickerPart
  cases m.sticker
  · exact h
  · dsimp only
    split
    · refine insert_media_mediaInv _ _ h (Or.inr ⟨?_, rfl, rfl, rfl⟩)
      show ("sticker" : String) ∈ ["photo", "audio", "voice", "video", "document", "sticker"]
      decide
    · exact h

theorem mediaFanout_mediaInv (st : Archive) (mid : Nat) (sid : Int) (m : Msg)
    (h : mediaInv st) : mediaInv (mediaFanout st mid sid m).1 := by
  unfold mediaFanout
  refine seqB_preserves mediaInv _ _
    (photoPart_mediaInv _ _ _ _ (locationPart_mediaInv _ _ _ h)) (fun s hs => ?_)
  refine seqB_preserves mediaInv _ _ (audioPart_mediaInv _ _ _ _ hs) (fun s hs => ?_)
  refine seqB_preserves mediaInv _ _ (voicePart_mediaInv _ _ _ _ hs) (fun s hs => ?_)
  refine seqB_preserves mediaInv _ _ (videoPart_mediaInv _ _ _ _ hs) (fun s hs => ?_)
  refine seqB_preserves mediaInv _ _ (documentPart_mediaInv _ _ _ _ hs) (fun s hs => ?_)
  exact stickerPart_mediaInv _ _ _ _ hs

theorem archiveWithContext_mediaInv (st : Archive) (a : Int) (m : Msg) (sid : Int)
    (u : Nat) (c : Option String) (h : mediaInv st) :
    mediaInv (archiveWithContext st a m sid u c).1 := by
  unfold archiveWithContext
  dsimp only
  exact mediaFanout_mediaInv _ _ _ _ h

/-- C8: every Media row the dispatcher inserts satisfies the type-keyed
exclusivity shape — `location` rows carry coordinates and no storage key,
file-bearing rows carry a storage key and no coordinates — so the shape
invariant over the `media` table is preserved by `process_update`. -/
theorem c8_media_shape_invariant (st : Archive) (upd : Update) (h : mediaInv st) :
    mediaInv (process_update st upd).1 := by
  rcases hm : pyMsgOr upd.message upd.edited_message with _ | msg
  · rw [process_update_no_message st upd hm]
    exact h
  rcases hu : msg.from_user with _ | u
  · rw [process_update_no_sender st upd msg hm hu]
    exact h
  have hup : mediaInv (upsert_user st u).1 := by
    unfold mediaInv
    rw [upsert_user_fst_media]
    exact h
  by_cases hcmd : pyStrip (messageText msg) = "/start_trip"
  · rw [process_update_command st upd msg u hm hu hcmd]
    exact hup
  rcases hrow : lookupState st.userStates (upsert_user st u).2 with _ | row
  · rw [process_update_no_state st upd msg u hm hu hcmd hrow]
    exact archiveWithContext_mediaInv _ _ _ _ _ _ hup
  by_cases hact : row.current_state = some "survey_active"
  · by_cases hstep0 : row.current_step < QUESTION_BANK.length
    · by_cases hstep : row.current_step + 1 < QUESTION_BANK.length
      · rw [process_update_advance st upd msg u row hm hu hcmd hrow hact hstep]
        exact archiveWithContext_mediaInv _ _ _ _ _ _ hup
      · rw [process_update_final st upd msg u row hm hu hcmd hrow hact hstep0 hstep]
        exact archiveWithContext_mediaInv _ _ _ _ _ _ hup
    · rw [process_update_index_error st upd msg u row hm hu hcmd hrow hact hstep0]
      exact hup
  · rw [process_update_inactive st upd msg u row hm hu hcmd hrow hact]
    exact archiveWithContext_mediaInv _ _ _ _ _ _ hup

/-- Witness for C8: the empty archive trivially satisfies the shape invariant
and still does after processing a location-bearing update. -/
theorem c8_media_shape_invariant_witness :
    mediaInv emptyArchive ∧
    mediaInv (process_update emptyArchive c4Upd).1 := by
  have h0 : mediaInv emptyArchive := fun r hr => absurd hr (List.not_mem_nil r)
  exact ⟨h0, c8_media_shape_invariant emptyArchive c4Upd h0⟩

/-- C9: the FSM consistency invariant — every `survey_active` row has exactly
`current_step` collected answers and `current_step` inside the question
list — is preserved by every `process_update` call. -/
theorem c9_state_invariant (st : Archive) (upd : Update) (h : stateInv st) :
    stateInv (process_update st upd).1 := by
  rcases hm : pyMsgOr upd.message upd.edited_message with _ | msg
  · rw [process_update_no_message st upd hm]
    exact h
  rcases hu : msg.from_user with _ | u
  · rw [process_update_no_sender st upd msg hm hu]
    exact h
  have hup : stateInv (upsert_user st u).1 := by
    unfold stateInv
    rw [upsert_user_fst_userStates]
    exact h
  by_cases hcmd : pyStrip (messageText msg) = "/start_trip"
  · rw [process_update_command st upd msg u hm hu hcmd]
    show stateInvL (putState (upsert_user st u).1.userStates (upsert_user st u).2
      { current_state := some "survey_active", current_step := 0, answers := [] })
    rw [upsert_user_fst_userStates]
    exact stateInvL_putState _ _ _ h (fun _ => ⟨rfl, by decide⟩)
  rcases hrow : lookupState st.userStates (upsert_user st u).2 with _ | row
  · rw [process_update_no_state st upd msg u hm hu hcmd hrow]
    show stateInvL (archiveWithContext (upsert_user st u).1 upd.update_id msg u.id
      (upsert_user st u).2 none).1.userStates
    rw [archiveWithContext_fst_userStates, upsert_user_fst_userStates]
    exact h
  by_cases hact : row.current_state = some "survey_active"
  · have hmem := lookupState_mem _ _ _ hrow
    have hinv := h _ hmem hact
    by_cases hstep0 : row.current_step < QUESTION_BANK.length
    · by_cases hstep : row.current_step + 1 < QUESTION_BANK.length
      · rw [process_update_advance st upd msg u row hm hu hcmd hrow hact hstep]
        show stateInvL (archiveWithContext _ _ _ _ _ _).1.userStates
        rw [archiveWithContext_fst_userStates, send_message_userStates,
          advanceState_userStates, upsert_user_fst_userStates]
        refine stateInvL_mapState _ _ _ h (fun r hr => ⟨?_, hstep⟩)
        show (row.answers ++ [messageText msg]).length = row.current_step + 1
        rw [List.length_append, List.length_singleton, hinv.1]
      · rw [process_update_final st upd msg u row hm hu hcmd hrow hact hstep0 hstep]
        show stateInvL (archiveWithContext _ _ _ _ _ _).1.userStates
        rw [archiveWithContext_fst_userStates, send_message_userStates,
          clearState_userStates, upsert_user_fst_userStates]
        exact stateInvL_mapState _ _ _ h (fun r hr => Option.noConfusion hr)
    · rw [process_update_index_error st upd msg u row hm hu hcmd hrow hact hstep0]
      exact hup
  · rw [process_update_inactive st upd msg u row hm hu hcmd hrow hact]
    show stateInvL (archiveWithContext (upsert_user st u).1 upd.update_id msg u.id
      (upsert_user st u).2 none).1.userStates
    rw [archiveWithContext_fst_userStates, upsert_user_fst_userStates]
    exact h

/-- Witness for C9: an archive with Alice active at step 1 holding one answer
satisfies the invariant, and still does after she answers again. -/
theorem c9_state_invariant_witness :
    stateInv (archiveActive 1 ["a"]) ∧
    stateInv (process_update (archiveActive 1 ["a"])
      (mkUpdate 50 { bareMsg 51 7 (some tgAlice) with text := some "b" })).1 := by
  have h0 : stateInv (archiveActive 1 ["a"]) := by
    intro p hp
    rcases List.mem_singleton.1 hp with rfl
    intro _
    exact ⟨rfl, by decide⟩
  exact ⟨h0, c9_state_invariant _ _ h0⟩

/-- C10: while the survey is active at step `i`, an update carrying neither
text nor caption (here: a bare location) is still consumed as the answer to
question `i`: the empty string is appended to the answers, the state advances
(or the survey completes with the empty string paired with the last question
in the summary), the Message is annotated with question `i`, and the location
is still archived as a Media row. -/
theorem c10_bare_media_counts_as_answer (st : Archive) (upd : Update) (msg : Msg)
    (u : TgUser) (i : Nat) (ans : List String) (loc : Loc)
    (hm : pyMsgOr upd.message upd.edited_message = some msg)
    (hu : msg.from_user = some u)
    (htext : msg.text = none) (hcap : msg.caption = none)
    (hloc : msg.location = some loc) (hp : msg.photo = []) (ha : msg.audio = none)
    (hv : msg.voice = none) (hvi : msg.video = none) (hd : msg.document = none)
    (hs : msg.sticker = none)
    (hrow : lookupState st.userStates (upsert_user st u).2 =
      some { current_state := some "survey_active", current_step := i, answers := ans })
    (hiN : i < QUESTION_BANK.length) (hlen : ans.length = i) :
    (process_update st upd).1.messages = st.messages ++
        [{ id := st.nextMessageId, telegram_message_id := msg.message_id,
           update_id := upd.update_id, user_id := (upsert_user st u).2,
           chat_id := msg.chat_id, text := none,
           survey_question := some (QUESTION_BANK.getD i "") }] ∧
    (process_update st upd).1.media = st.media ++ [locationRow st.nextMessageId loc] ∧
    (i + 1 < QUESTION_BANK.length →
      lookupState (process_update st upd).1.userStates (upsert_user st u).2 =
        some { current_state := some "survey_active", current_step := i + 1,
               answers := ans ++ [""] } ∧
      (process_update st upd).1.sent = st.sent ++
        [(msg.chat_id, "Question " ++ toString (i + 1 + 1) ++ ": " ++
          QUESTION_BANK.getD (i + 1) "")]) ∧
    (¬ i + 1 < QUESTION_BANK.length →
      lookupState (process_update st upd).1.userStates (upsert_user st u).2 =
        some { current_state := none, current_step := 0, answers := ans } ∧
      (process_update st upd).1.sent = st.sent ++
        [(msg.chat_id, "Survey Complete! Here is your summary:\n\n" ++
          String.intercalate "\n"
            ((QUESTION_BANK.zip (ans ++ [""])).map
              (fun p => "Q: " ++ p.1 ++ "\nA: " ++ p.2)))] ∧
      (QUESTION_BANK.getD i "", "") ∈ QUESTION_BANK.zip (ans ++ [""])) := by
  have htext0 : messageText msg = "" := by
    unfold messageText
    rw [htext, hcap]
    rfl
  have hcmd : ¬ pyStrip (messageText msg) = "/start_trip" := by
    rw [htext0]
    decide
  have htcol : pyOr msg.text msg.caption = none := by
    rw [htext, hcap]
    rfl
  by_cases hstep : i + 1 < QUESTION_BANK.length
  · rw [process_update_advance st upd msg u _ hm hu hcmd hrow rfl hstep]
    refine ⟨?_, ?_, fun _ => ⟨?_, ?_⟩, fun hc => absurd hstep hc⟩
    · rw [archiveWithContext_fst_messages]
      unfold archivedRow
      rw [send_message_messages, advanceState_messages, upsert_user_fst_messages,
        send_message_nextMessageId, advanceState_nextMessageId,
        upsert_user_fst_nextMessageId, htcol]
    · rw [(archiveWithContext_locationOnly_media _ _ _ _ _ _ loc
          hloc hp ha hv hvi hd hs).1,
        send_message_media, advanceState_media, upsert_user_fst_media,
        send_message_nextMessageId, advanceState_nextMessageId,
        upsert_user_fst_nextMessageId]
    · rw [archiveWithContext_fst_userStates, send_message_userStates,
        advanceState_userStates, upsert_user_fst_userStates,
        lookupState_mapState_self, hrow, htext0]
      rfl
    · rw [archiveWithContext_fst_sent, send_message_sent, advanceState_sent,
        upsert_user_fst_sent]
  · rw [process_update_final st upd msg u _ hm hu hcmd hrow rfl hiN hstep]
    refine ⟨?_, ?_, fun hc => absurd hc hstep, fun _ => ⟨?_, ?_, ?_⟩⟩
    · rw [archiveWithContext_fst_messages]
      unfold archivedRow
      rw [send_message_messages, clearState_messages, upsert_user_fst_messages,
        send_message_nextMessageId, clearState_nextMessageId,
        upsert_user_fst_nextMessageId, htcol]
    · rw [(archiveWithContext_locationOnly_media _ _ _ _ _ _ loc
          hloc hp ha hv hvi hd hs).1,
        send_message_media, clearState_media, upsert_user_fst_media,
        send_message_nextMessageId, clearState_nextMessageId,
        upsert_user_fst_nextMessageId]
    · rw [archiveWithContext_fst_userStates, send_message_userStates,
        clearState_userStates, upsert_user_fst_userStates,
        lookupState_mapState_self, hrow]
      rfl
    · rw [archiveWithContext_fst_sent, send_message_sent, clearState_sent,
        upsert_user_fst_sent, htext0]
    · subst hlen
      have hA : ans.length < (ans ++ [""]).length := by
        rw [List.length_append, List.length_singleton]
        exact Nat.lt_succ_self ans.length
      have hz : ans.length < (QUESTION_BANK.zip (ans ++ [""])).length := by
        rw [List.length_zip]
        exact lt_min hiN hA
      have h1 := List.getElem_mem hz
      rw [List.getElem_zip, List.getElem_concat_length ans "" ans.length rfl hA] at h1
      rw [List.getD_eq_getElem QUESTION_BANK "" hiN]
      exact h1

/-- Witness for C10: Alice active at step 1 with one answer receives a bare
location; the empty string is recorded as her second answer and the location
is archived. -/
theorem c10_bare_media_counts_as_answer_witness :
    (1 + 1 < QUESTION_BANK.length) ∧
    (process_update (archiveActive 1 ["a"]) c10Upd).1.media =
      (archiveActive 1 ["a"]).media ++ [locationRow 1 locBerlin] ∧
    lookupState (process_update (archiveActive 1 ["a"]) c10Upd).1.userStates
        (upsert_user (archiveActive 1 ["a"]) tgAlice).2 =
      some { current_state := some "survey_active", current_step := 1 + 1,
             answers := ["a"] ++ [""] } := by
  have h := c10_bare_media_counts_as_answer (archiveActive 1 ["a"]) c10Upd
    { bareMsg 61 7 (some tgAlice) with location := some locBerlin } tgAlice 1 ["a"]
    locBerlin rfl rfl rfl rfl rfl rfl rfl rfl rfl rfl rfl rfl (by decide) (by decide)
  exact ⟨by decide, h.2.1, (h.2.2.1 (by decide)).1⟩

end FieldAssistant
